import Mathlib

/-!
Shallow embedding of the weather-assistant query pipeline (src/code.py).

External effects (HTTP requests to the geocoding and forecast services, and
chat calls to the language model) are modelled as oracles packaged in an
`Env`.  Every operation that performs effects additionally returns a `Calls`
log recording which oracles it consulted and with which arguments, so that
claims about which network calls happen (or do not happen) can be stated.
An unhandled Python exception from an unguarded dict/list access is modelled
as `none` in an `Option` result.
-/

namespace WeatherAssistant

/-- Model of `str.lower` on a single character, covering the ASCII letters
(the only characters whose case matters for this code: every keyword is
ASCII except for the degree sign, which has no case). -/
def lowerChar (c : Char) : Char :=
  if 65 ≤ c.toNat ∧ c.toNat ≤ 90 then Char.ofNat (c.toNat + 32) else c

/-- Model of Python `question.lower()`. -/
def pyLower (s : String) : String := String.mk (s.data.map lowerChar)

/-- Whether the character list `l` starts with the character list `pat`. -/
def startsWithChars : List Char → List Char → Bool
  | [], _ => true
  | _ :: _, [] => false
  | p :: ps, c :: cs => p == c && startsWithChars ps cs

/-- Whether `pat` occurs contiguously inside `l`. -/
def containsChars (pat : List Char) : List Char → Bool
  | [] => startsWithChars pat []
  | c :: cs => startsWithChars pat (c :: cs) || containsChars pat cs

/-- Model of Python substring containment `pat in hay`. -/
def strContains (hay pat : String) : Bool := containsChars pat.data hay.data

/-- The fixed weather-keyword set `WEATHER_KEYWORDS` of the source (a Python
set; modelled as a list, which `any` traverses the same way). -/
def WEATHER_KEYWORDS : List String :=
  ["weather", "temperature", "rain", "snow", "sunny", "cloudy", "storm",
   "forecast", "humidity", "wind", "precipitation", "drizzle", "fog",
   "thunder", "hail", "breeze", "chilly", "warm", "cold", "hot",
   "degrees", "celsius", "fahrenheit", "°C", "°F"]

/-- Model of `needs_weather_data(question)`: lower-case the question and test every
keyword for substring containment. -/
def needs_weather_data (question : String) : Bool :=
  let question_lower := pyLower question
  WEATHER_KEYWORDS.any (fun keyword => strContains question_lower keyword)

/-- The question contains some letter-case variant of `k` as a substring
(formalised as: the lower-casing of `k` occurs in the lower-casing of `q`,
which for ASCII text is exactly case-insensitive containment). -/
def containsAnyCase (q k : String) : Bool := strContains (pyLower q) (pyLower k)

/-- The `weather_codes` table of `get_weather_description`. -/
def weather_codes : List (Int × String) :=
  [(0, "Clear sky"), (1, "Mainly clear"), (2, "Partly cloudy"), (3, "Overcast"),
   (45, "Foggy"), (48, "Depositing rime fog"),
   (51, "Light drizzle"), (53, "Moderate drizzle"), (55, "Dense drizzle"),
   (61, "Slight rain"), (63, "Moderate rain"), (65, "Heavy rain"),
   (71, "Slight snow"), (73, "Moderate snow"), (75, "Heavy snow"), (77, "Snow grains"),
   (80, "Slight rain showers"), (81, "Moderate rain showers"), (82, "Violent rain showers"),
   (85, "Slight snow showers"), (86, "Heavy snow showers"),
   (95, "Thunderstorm"), (96, "Thunderstorm with slight hail"),
   (99, "Thunderstorm with heavy hail")]

/-- Model of `get_weather_description(code)`: dictionary lookup with default
`"Unknown"` (Python `weather_codes.get(code, "Unknown")`). -/
def get_weather_description (code : Int) : String :=
  (weather_codes.lookup code).getD "Unknown"

/-! ## Data model of the JSON payloads -/

/-- First element of the geocoding `results` array: the fields the code
reads (the `latitude` and `longitude` keys of `city_data`). -/
structure GeoJson where
  latitude : Rat
  longitude : Rat
deriving Repr, DecidableEq

/-- Body of a successful geocoding response: the `results` key may be
missing (`none`) or hold an array (the `results` lookup of the code is falsy when the
key is missing or the array is empty). -/
structure GeoResponse where
  results : Option (List GeoJson)
deriving Repr, DecidableEq

/-- The `current` object of a forecast response; every field the code reads
may be absent, since the JSON shape is unchecked. -/
structure Current where
  temperature_2m : Option Rat
  relative_humidity_2m : Option Rat
  weather_code : Option Int
  wind_speed_10m : Option Rat
deriving Repr, DecidableEq

/-- The `daily` object of a forecast response: parallel arrays, each key
possibly absent. -/
structure Daily where
  temperature_2m_max : Option (List Rat)
  temperature_2m_min : Option (List Rat)
  precipitation_probability_max : Option (List Rat)
  weather_code : Option (List Int)
deriving Repr, DecidableEq

/-- Body of a successful forecast response; `current` and `daily` may be
missing. -/
structure Weather where
  current : Option Current
  daily : Option Daily
deriving Repr, DecidableEq

/-- Result type of `get_weather_data`, declared `dict[str, Any] | str`: either the weather
JSON or an error-message string. -/
inductive GetWeatherResult where
  | dict (w : Weather)
  | str (s : String)
deriving Repr, DecidableEq

/-- Model of the Python `isinstance(weather_data, str)` test. -/
def GetWeatherResult.isStr : GetWeatherResult → Bool
  | .dict _ => false
  | .str _ => true

/-! ## Effect oracles and call log -/

/-- The external world: responses of the geocoding endpoint (per city
string), of the forecast endpoint (per latitude/longitude pair), the chat
completion service (per model name and role/content message list, returning
the completion text, the message content field of the response), and the ambient
clock (imported in the source, unused by the pipeline).  An `Except.error`
models a raised transport/HTTP exception, carrying `str(e)`. -/
structure Env where
  geoResp : String → Except String GeoResponse
  forecastResp : Rat → Rat → Except String Weather
  chat : String → List (String × String) → String
  now : String

/-- Log of external calls an operation performed: the argument of each
geocoding request, of each forecast request, and the number of chat calls. -/
structure Calls where
  geocodeArgs : List String
  forecastArgs : List (Rat × Rat)
  llm : Nat
deriving Repr, DecidableEq

/-- Sequential composition of call logs. -/
def mergeCalls (a b : Calls) : Calls :=
  ⟨a.geocodeArgs ++ b.geocodeArgs, a.forecastArgs ++ b.forecastArgs, a.llm + b.llm⟩

/-! ## The clients and the orchestrator -/

/-- Model of `get_city_coordinates(city)`: one geocoding request; on a raised
exception the handler returns `None`; on success, if the `results` lookup
is truthy the first result is returned, else `None`. -/
def get_city_coordinates (env : Env) (city : String) : Option GeoJson × Calls :=
  (match env.geoResp city with
   | .error _ => none
   | .ok data =>
     match data.results with
     | some (r :: _) => some r
     | some [] => none
     | none => none,
   ⟨[city], [], 0⟩)

/-- Model of `get_weather_data(city)`: geocode, short-circuit to an error string if
that yields nothing, else one forecast request; a raised forecast exception
is returned as an error string. -/
def get_weather_data (env : Env) (city : String) : GetWeatherResult × Calls :=
  match get_city_coordinates env city with
  | (none, c1) => (.str ("Error: Could not find coordinates for " ++ city), c1)
  | (some city_data, c1) =>
    match env.forecastResp city_data.latitude city_data.longitude with
    | .ok w =>
      (.dict w, mergeCalls c1 ⟨[], [(city_data.latitude, city_data.longitude)], 0⟩)
    | .error e =>
      (.str ("Error fetching weather data: " ++ e),
       mergeCalls c1 ⟨[], [(city_data.latitude, city_data.longitude)], 0⟩)

/-- The `get-weather` MCP tool: `return await get_weather_data(city)`. -/
def get_weather_tool (env : Env) (city : String) : GetWeatherResult × Calls :=
  get_weather_data env city

/-! ## City extraction and the query router -/

/-- Whitespace for Python string stripping. -/
def isPySpace (c : Char) : Bool :=
  c = ' ' || c = '\t' || c = '\n' || c = '\r' || c = '\x0b' || c = '\x0c'

/-- Model of Python `str.strip()`: drop whitespace from both ends. -/
def pyStrip (s : String) : String :=
  String.mk (((s.data.dropWhile isPySpace).reverse.dropWhile isPySpace).reverse)

/-- The user prompt of `extract_city` (apostrophes written `\x27`). -/
def extract_city_prompt (question : String) : String :=
  "Extract the city name from this question. If no city is mentioned, respond with \x27NONE\x27.\n            Question: " ++
  question ++
  "\n\n            Respond with ONLY the city name or \x27NONE\x27."

/-- Model of `extract_city(question)`: one chat call to `llama3.2:3b`, stripping the
completion of surrounding whitespace (`.strip()`). -/
def extract_city (env : Env) (question : String) : String × Calls :=
  (pyStrip (env.chat "llama3.2:3b"
      [("system", "You are a city name extractor. Respond with ONLY the city name or \x22NONE\x22."),
       ("user", extract_city_prompt question)]),
   ⟨[], [], 1⟩)

/-- The fixed clarification message returned when the extractor yields the
`NONE` sentinel. -/
def clarification_message : String :=
  "I need a specific city to provide weather information. Could you please specify which city you\x27re asking about?"

/-- The four `current` accesses of the grounding block, in the order the
f-string reads them; a missing key is `none`. -/
def currentFields (current : Current) : Option (Rat × Rat × Int × Rat) := do
  let t ← current.temperature_2m
  let hum ← current.relative_humidity_2m
  let wc ← current.weather_code
  let wind ← current.wind_speed_10m
  pure (t, hum, wc, wind)

/-- The four `daily` accesses of the grounding block, in the order the
f-string reads them, each an unguarded key access followed by an unguarded
`[0]` index. -/
def dailyFields (daily : Daily) : Option (Rat × Rat × Int × Rat) := do
  let dmax ← daily.temperature_2m_max
  let hi ← dmax.head?
  let dmin ← daily.temperature_2m_min
  let lo ← dmin.head?
  let dwc ← daily.weather_code
  let wc0 ← dwc.head?
  let dprec ← daily.precipitation_probability_max
  let prec ← dprec.head?
  pure (hi, lo, wc0, prec)

/-- The weather-grounding block of `process_query_tool`: an f-string over
the `current` and `daily` objects, with every dict access and the `[0]`
array accesses unguarded — a missing key or empty array raises, modelled as
`none`.  Numeric rendering is modelled by `toString`.  The `env` parameter
records that the block is built in a context where every ambient effect
(clock, network, model) is available; the body consults none of them. -/
def format_weather_info (_env : Env) (city : String) (w : Weather) : Option String := do
  let current ← w.current
  let daily ← w.daily
  let (t, hum, wc, wind) ← currentFields current
  let (hi, lo, wc0, prec) ← dailyFields daily
  pure ("Current weather in " ++ city ++ ":\n                        Temperature: " ++
    toString t ++ "°C\n                        Humidity: " ++
    toString hum ++ "%\n                        Conditions: " ++
    get_weather_description wc ++ "\n                        Wind Speed: " ++
    toString wind ++ " km/h\n\n                        Forecast for tomorrow:\n                        High: " ++
    toString hi ++ "°C\n                        Low: " ++
    toString lo ++ "°C\n                        Conditions: " ++
    get_weather_description wc0 ++ "\n                        Chance of precipitation: " ++
    toString prec ++ "%")

/-- The final user prompt of the weather path, embedding the grounding
block and the original question. -/
def final_user_prompt (city weather_info question : String) : String :=
  "Based on the following real weather data for " ++ city ++ ":\n                " ++
  weather_info ++
  "\n\n                Please answer this question: " ++ question ++
  "\n\n                Provide a natural, conversational response incorporating the actual weather data."

/-- The `process-query` MCP tool: intent classification, then either a
direct chat answer, the clarification message, a propagated fetch-error
string, or a grounded chat answer.  The first component is `none` exactly
when an unguarded JSON access raises; the second is the call log. -/
def process_query_tool (env : Env) (question : String) : Option String × Calls :=
  if !needs_weather_data question then
    (some (env.chat "llama3.2:3b"
        [("system", "You are a helpful assistant that can answer various questions."),
         ("user", question)]),
     ⟨[], [], 1⟩)
  else
    match extract_city env question with
    | (city, c1) =>
      if city = "NONE" then
        (some clarification_message, c1)
      else
        match get_weather_tool env city with
        | (.str msg, c2) => (some msg, mergeCalls c1 c2)
        | (.dict weather_data, c2) =>
          match format_weather_info env city weather_data with
          | none => (none, mergeCalls c1 c2)
          | some weather_info =>
            (some (env.chat "llama3.2:3b"
                [("system", "You are a helpful weather assistant that provides accurate weather information based on real data."),
                 ("user", final_user_prompt city weather_info question)]),
             mergeCalls (mergeCalls c1 c2) ⟨[], [], 1⟩)

/-! ## Theorems -/

/-- Helper: looking up a key absent from an association list yields
`none`. -/
theorem lookup_eq_none_of_forall_ne {l : List (Int × String)} {code : Int}
    (h : ∀ p ∈ l, code ≠ p.1) : l.lookup code = none := by
  induction l with
  | nil => rfl
  | cons p t ih =>
    have h1 : code ≠ p.1 := h p (List.mem_cons_self p t)
    have h2 : ∀ q ∈ t, code ≠ q.1 := fun q hq => h q (List.mem_cons_of_mem p hq)
    cases p with
    | mk k v =>
      simp only [List.lookup]
      rw [beq_eq_false_iff_ne.mpr h1]
      exact ih h2

/-- Claim C3: `get_weather_description` is total on the integers: every key
of the fixed table maps to its fixed string (in particular code 61 to
"Slight rain") and every integer outside the table, in particular every
integer of [0, 99] outside it, maps to the literal "Unknown". -/
theorem get_weather_description_total :
    (∀ p ∈ weather_codes, get_weather_description p.1 = p.2) ∧
    get_weather_description 61 = "Slight rain" ∧
    (∀ code : Int, code ∉ weather_codes.map Prod.fst →
      get_weather_description code = "Unknown") := by
  refine ⟨by decide, by decide, ?_⟩
  intro code h
  unfold get_weather_description
  rw [lookup_eq_none_of_forall_ne ?_]
  · rfl
  · intro p hp heq
    apply h
    rw [heq]
    exact List.mem_map.mpr ⟨p, hp, rfl⟩

/-- Witness for C3 at the concrete codes 61 (a table key) and 42 (in
[0, 99] but not a table key). -/
theorem get_weather_description_total_witness :
    get_weather_description 61 = "Slight rain" ∧
    ((42 : Int) ∉ weather_codes.map Prod.fst ∧
      get_weather_description 42 = "Unknown") :=
  ⟨get_weather_description_total.2.1,
   by decide, get_weather_description_total.2.2 42 (by decide)⟩

/-- Helper: `lowerChar` never produces the uppercase letters appearing in
the degree-symbol keywords. -/
theorem lowerChar_ne_upper (c : Char) : lowerChar c ≠ 'C' ∧ lowerChar c ≠ 'F' := by
  unfold lowerChar
  split_ifs with h
  · obtain ⟨h1, h2⟩ := h
    generalize hg : c.toNat = n at h1 h2 ⊢
    interval_cases n <;> exact ⟨by decide, by decide⟩
  · refine ⟨fun heq => h ?_, fun heq => h ?_⟩ <;> subst heq <;> exact ⟨by decide, by decide⟩

/-- Helper: a matched pattern position only uses characters of the
haystack. -/
theorem mem_of_startsWithChars :
    ∀ pat l : List Char, startsWithChars pat l = true → ∀ a ∈ pat, a ∈ l := by
  intro pat
  induction pat with
  | nil =>
    intro l _ a ha
    cases ha
  | cons p ps ih =>
    intro l h a ha
    cases l with
    | nil => simp [startsWithChars] at h
    | cons c cs =>
      simp only [startsWithChars, Bool.and_eq_true, beq_iff_eq] at h
      obtain ⟨hpc, hrest⟩ := h
      rcases List.mem_cons.mp ha with rfl | hmem
      · exact List.mem_cons.mpr (Or.inl hpc)
      · exact List.mem_cons_of_mem c (ih cs hrest a hmem)

/-- Helper: every character of a contained pattern occurs in the
haystack. -/
theorem mem_of_containsChars :
    ∀ (pat l : List Char), containsChars pat l = true → ∀ a ∈ pat, a ∈ l := by
  intro pat l
  induction l with
  | nil =>
    intro h a ha
    exact mem_of_startsWithChars pat [] h a ha
  | cons c cs ih =>
    intro h a ha
    simp only [containsChars, Bool.or_eq_true] at h
    rcases h with h | h
    · exact mem_of_startsWithChars pat (c :: cs) h a ha
    · exact List.mem_cons_of_mem c (ih h a ha)

/-- Helper: the keyword `"°C"` can never occur in a lower-cased question,
since lower-casing leaves no uppercase `C` to match. -/
theorem strContains_pyLower_degC (q : String) : strContains (pyLower q) "°C" = false := by
  by_contra hne
  rw [Bool.not_eq_false] at hne
  have h : containsChars "°C".data (pyLower q).data = true := hne
  have hc : ('C' : Char) ∈ (pyLower q).data :=
    mem_of_containsChars _ _ h 'C' (by decide)
  have hc2 : ('C' : Char) ∈ q.data.map lowerChar := hc
  rcases List.mem_map.mp hc2 with ⟨c, _, hcl⟩
  exact (lowerChar_ne_upper c).1 hcl

/-- Helper: the keyword `"°F"` can never occur in a lower-cased
question. -/
theorem strContains_pyLower_degF (q : String) : strContains (pyLower q) "°F" = false := by
  by_contra hne
  rw [Bool.not_eq_false] at hne
  have h : containsChars "°F".data (pyLower q).data = true := hne
  have hc : ('F' : Char) ∈ (pyLower q).data :=
    mem_of_containsChars _ _ h 'F' (by decide)
  have hc2 : ('F' : Char) ∈ q.data.map lowerChar := hc
  rcases List.mem_map.mp hc2 with ⟨c, _, hcl⟩
  exact (lowerChar_ne_upper c).2 hcl

/-- Helper: every keyword other than the degree-symbol pair is already
lower-case. -/
theorem keywords_fixed_by_pyLower :
    ∀ k ∈ WEATHER_KEYWORDS, k ≠ "°C" → k ≠ "°F" → pyLower k = k := by decide

/-- Claim C1 (counterexample): the question `"20°C"` contains the
configured keyword `"°C"` verbatim (hence in some letter case), yet
`needs_weather_data` returns `false` on it, because the question is
lower-cased before the case-sensitive containment test and the keyword
retains its uppercase letter. -/
theorem needs_weather_data_degC_counterexample :
    "°C" ∈ WEATHER_KEYWORDS ∧
    strContains "20°C" "°C" = true ∧
    containsAnyCase "20°C" "°C" = true ∧
    needs_weather_data "20°C" = false := by decide

/-- Claim C1 (amended): `needs_weather_data` returns `true` exactly when
the question contains, in any letter case, one of the configured keywords
other than `"°C"` and `"°F"`; those two keywords can never fire (the
question is lower-cased, the keywords keep their uppercase letter), and a
question containing no configured keyword in any case yields `false`. -/
theorem needs_weather_data_iff (q : String) :
    needs_weather_data q = true ↔
      ∃ k, k ∈ WEATHER_KEYWORDS ∧ k ≠ "°C" ∧ k ≠ "°F" ∧ containsAnyCase q k = true := by
  have hdef : needs_weather_data q =
      WEATHER_KEYWORDS.any (fun keyword => strContains (pyLower q) keyword) := rfl
  rw [hdef, List.any_eq_true]
  constructor
  · rintro ⟨k, hk, hc⟩
    have hc' : strContains (pyLower q) k = true := hc
    by_cases hC : k = "°C"
    · subst hC
      rw [strContains_pyLower_degC q] at hc'
      cases hc'
    · by_cases hF : k = "°F"
      · subst hF
        rw [strContains_pyLower_degF q] at hc'
        cases hc'
      · refine ⟨k, hk, hC, hF, ?_⟩
        unfold containsAnyCase
        rw [keywords_fixed_by_pyLower k hk hC hF]
        exact hc'
  · rintro ⟨k, hk, hC, hF, hc⟩
    refine ⟨k, hk, ?_⟩
    unfold containsAnyCase at hc
    rw [keywords_fixed_by_pyLower k hk hC hF] at hc
    exact hc

/-- Claim C8: the weather-grounding block is a pure function of the city
string and the snapshot — two constructions from the same city and snapshot
agree whatever the ambient environment (clock, network, model) looks like:
no timestamp or randomness enters the text. -/
theorem format_weather_info_deterministic (e1 e2 : Env) (city : String) (w : Weather) :
    format_weather_info e1 city w = format_weather_info e2 city w := rfl

/-- Stub environment builder used in the concrete witnesses: a constant
geocoding response, a constant forecast response, and a model that always
replies with a fixed string. -/
def stubEnv (geo : Except String GeoResponse) (fc : Except String Weather) (reply : String) : Env :=
  { geoResp := fun _ => geo
    forecastResp := fun _ _ => fc
    chat := fun _ _ => reply
    now := "2024-01-01" }

/-- Helper: the call log of `get_weather_data` never contains a chat call
and always contains exactly the one geocoding request for the city. -/
theorem get_weather_data_log (env : Env) (city : String) :
    (get_weather_data env city).2.geocodeArgs = [city] ∧
    (get_weather_data env city).2.llm = 0 := by
  rcases hp : get_city_coordinates env city with ⟨cd, c1⟩
  have hc1 : c1 = ⟨[city], [], 0⟩ := by
    have h2 : (get_city_coordinates env city).2 = ⟨[city], [], 0⟩ := rfl
    rw [hp] at h2
    exact h2
  subst hc1
  cases cd with
  | none => simp [get_weather_data, hp]
  | some cdv =>
    rcases hf : env.forecastResp cdv.latitude cdv.longitude with e | w <;>
      simp [get_weather_data, hp, hf, mergeCalls]

/-- Claim C6: `get_city_coordinates` maps a raised transport/HTTP error, a
missing `results` key, and an empty `results` array to the `None` outcome
rather than an exception, and on success returns exactly the first entry of
the `results` array, discarding the rest. -/
theorem get_city_coordinates_spec (env : Env) (city : String) :
    (∀ e, env.geoResp city = .error e → (get_city_coordinates env city).1 = none) ∧
    (∀ d, env.geoResp city = .ok d → (d.results = none ∨ d.results = some []) →
      (get_city_coordinates env city).1 = none) ∧
    (∀ d r rs, env.geoResp city = .ok d → d.results = some (r :: rs) →
      (get_city_coordinates env city).1 = some r) := by
  refine ⟨?_, ?_, ?_⟩
  · intro e he
    simp [get_city_coordinates, he]
  · intro d hd hres
    rcases hres with h | h <;> simp [get_city_coordinates, hd, h]
  · intro d r rs hd hres
    simp [get_city_coordinates, hd, hres]

/-- Witness for C6: a stub geocoding client raising a transport error
yields the `None` outcome for the city `Atlantis`. -/
theorem get_city_coordinates_spec_witness :
    (stubEnv (.error "boom") (.error "x") "").geoResp "Atlantis" = .error "boom" ∧
    (get_city_coordinates (stubEnv (.error "boom") (.error "x") "") "Atlantis").1 = none :=
  ⟨rfl, (get_city_coordinates_spec (stubEnv (.error "boom") (.error "x") "") "Atlantis").1 "boom" rfl⟩

/-- Claim C2: when geocoding yields no coordinates, `get_weather_data`
returns the `CityNotFound` error string for that city, and its call log
shows no forecast request was attempted. -/
theorem get_weather_data_geocode_failure (env : Env) (city : String)
    (h : (get_city_coordinates env city).1 = none) :
    get_weather_data env city =
      (.str ("Error: Could not find coordinates for " ++ city), ⟨[city], [], 0⟩) ∧
    (get_weather_data env city).2.forecastArgs = [] := by
  have h2 : (get_city_coordinates env city).2 = ⟨[city], [], 0⟩ := rfl
  have hp : get_city_coordinates env city = (none, ⟨[city], [], 0⟩) := by
    rw [← h, ← h2]
  refine ⟨?_, ?_⟩ <;> simp [get_weather_data, hp]

/-- Witness for C2: a geocoding stub returning zero results for the city
`Atlantis` makes `get_weather_data` return the error string with an empty
forecast-request log. -/
theorem get_weather_data_geocode_failure_witness :
    (get_city_coordinates (stubEnv (.ok ⟨some []⟩) (.error "x") "") "Atlantis").1 = none ∧
    get_weather_data (stubEnv (.ok ⟨some []⟩) (.error "x") "") "Atlantis" =
      (.str ("Error: Could not find coordinates for " ++ "Atlantis"), ⟨["Atlantis"], [], 0⟩) :=
  ⟨rfl, (get_weather_data_geocode_failure (stubEnv (.ok ⟨some []⟩) (.error "x") "") "Atlantis" rfl).1⟩

/-- Claim C9: the `get-weather` tool, though declared `-> dict`, produces a
plain string whenever geocoding finds no coordinates or the forecast
request raises — its output is the union dict-or-string discriminated by a
runtime type test. -/
theorem get_weather_tool_string_results (env : Env) (city : String) :
    ((get_city_coordinates env city).1 = none →
      (get_weather_tool env city).1.isStr = true) ∧
    (∀ cd e, (get_city_coordinates env city).1 = some cd →
      env.forecastResp cd.latitude cd.longitude = .error e →
      (get_weather_tool env city).1.isStr = true) := by
  have h2 : (get_city_coordinates env city).2 = ⟨[city], [], 0⟩ := rfl
  refine ⟨?_, ?_⟩
  · intro h
    have hp : get_city_coordinates env city = (none, ⟨[city], [], 0⟩) := by
      rw [← h, ← h2]
    simp [get_weather_tool, get_weather_data, hp, GetWeatherResult.isStr]
  · intro cd e h hf
    have hp : get_city_coordinates env city = (some cd, ⟨[city], [], 0⟩) := by
      rw [← h, ← h2]
    simp [get_weather_tool, get_weather_data, hp, hf, GetWeatherResult.isStr]

/-- Witness for C9: with a stub geocoding client returning zero results the
tool output is a string. -/
theorem get_weather_tool_string_results_witness :
    (get_city_coordinates (stubEnv (.ok ⟨some []⟩) (.error "x") "") "Atlantis").1 = none ∧
    (get_weather_tool (stubEnv (.ok ⟨some []⟩) (.error "x") "") "Atlantis").1.isStr = true :=
  ⟨rfl, (get_weather_tool_string_results (stubEnv (.ok ⟨some []⟩) (.error "x") "") "Atlantis").1 rfl⟩

/-- Helper: the extractor call log is always exactly one chat call. -/
theorem extract_city_log (env : Env) (question : String) :
    (extract_city env question).2 = ⟨[], [], 1⟩ := rfl

/-- Helper: the grounding block is `none` (an unguarded access raises)
when the forecast body lacks the `current` key or the `daily` key, or a
required field inside `current` is missing (`currentFields` faults), or a
required key inside `daily` is missing or its array is empty so the `[0]`
access faults (`dailyFields` faults). -/
theorem format_weather_info_missing (env : Env) (city : String) (w : Weather)
    (hm : w.current = none ∨ w.daily = none ∨
      (∃ c, w.current = some c ∧ currentFields c = none) ∨
      (∃ d, w.daily = some d ∧ dailyFields d = none)) :
    format_weather_info env city w = none := by
  rcases hm with h | h | ⟨c, hc, hcf⟩ | ⟨d, hd, hdf⟩
  · simp [format_weather_info, h]
  · rcases hc : w.current with _ | c
    · simp [format_weather_info, hc]
    · simp [format_weather_info, hc, h]
  · rcases hd : w.daily with _ | d
    · simp [format_weather_info, hc, hd]
    · simp [format_weather_info, hc, hd, hcf]
  · rcases hc : w.current with _ | c
    · simp [format_weather_info, hc]
    · rcases hcf : currentFields c with _ | ⟨t, hum, wc, wind⟩
      · simp [format_weather_info, hc, hd, hcf]
      · simp [format_weather_info, hc, hd, hcf, hdf]

/-- Claim C4: on a weather-classified question whose city extraction yields
the sentinel `NONE`, the router returns the fixed clarification message,
with no geocoding request, no forecast request and no chat call beyond the
single extractor call. -/
theorem process_query_tool_none_sentinel (env : Env) (question : String)
    (hw : needs_weather_data question = true)
    (hn : (extract_city env question).1 = "NONE") :
    (process_query_tool env question).1 = some clarification_message ∧
    (process_query_tool env question).2 = ⟨[], [], 1⟩ := by
  have hp : extract_city env question = ("NONE", ⟨[], [], 1⟩) := by
    rw [← hn, ← extract_city_log env question]
  refine ⟨?_, ?_⟩ <;> simp [process_query_tool, hw, hp]

/-- Witness for C4: a stub extractor model answering `NONE` on the Seattle
question makes the router return the clarification message with the
one-extractor-call log. -/
theorem process_query_tool_none_sentinel_witness :
    needs_weather_data "What\x27s the weather like in Seattle?" = true ∧
    (extract_city (stubEnv (.error "x") (.error "x") "NONE") "What\x27s the weather like in Seattle?").1 = "NONE" ∧
    (process_query_tool (stubEnv (.error "x") (.error "x") "NONE") "What\x27s the weather like in Seattle?").1 =
      some clarification_message :=
  ⟨by decide, rfl,
   (process_query_tool_none_sentinel (stubEnv (.error "x") (.error "x") "NONE")
      "What\x27s the weather like in Seattle?" (by decide) rfl).1⟩

/-- Claim C5: on a weather-classified question with an extracted city, when
the weather fetch produces a string (failure) outcome, the router returns
that message verbatim and the total number of chat calls stays at one (the
extractor call): no further language-model call happens. -/
theorem process_query_tool_propagates_error (env : Env) (question msg : String)
    (hw : needs_weather_data question = true)
    (hn : (extract_city env question).1 ≠ "NONE")
    (he : (get_weather_tool env ((extract_city env question).1)).1 = .str msg) :
    (process_query_tool env question).1 = some msg ∧
    (process_query_tool env question).2.llm = 1 := by
  have hp : extract_city env question = ((extract_city env question).1, ⟨[], [], 1⟩) := rfl
  rcases hg : get_weather_tool env ((extract_city env question).1) with ⟨res, c2⟩
  have hres : res = .str msg := by
    rw [hg] at he
    exact he
  subst hres
  have hllm : c2.llm = 0 := by
    have h0 : (get_weather_tool env ((extract_city env question).1)).2.llm = 0 :=
      (get_weather_data_log env ((extract_city env question).1)).2
    rw [hg] at h0
    exact h0
  refine ⟨?_, ?_⟩ <;>
    (rw [process_query_tool.eq_def]; simp [hw, hn, hg, mergeCalls, hllm, ← hp]; try rfl)

/-- Witness for C5: a stub whose extractor answers `Atlantis` and whose
geocoding returns zero results; the router returns the geocoding error
string with exactly one chat call in the log. -/
theorem process_query_tool_propagates_error_witness :
    needs_weather_data "How is the weather?" = true ∧
    (extract_city (stubEnv (.ok ⟨some []⟩) (.error "x") "Atlantis") "How is the weather?").1 ≠ "NONE" ∧
    (get_weather_tool (stubEnv (.ok ⟨some []⟩) (.error "x") "Atlantis")
        ((extract_city (stubEnv (.ok ⟨some []⟩) (.error "x") "Atlantis") "How is the weather?").1)).1 =
      .str ("Error: Could not find coordinates for " ++ "Atlantis") ∧
    (process_query_tool (stubEnv (.ok ⟨some []⟩) (.error "x") "Atlantis") "How is the weather?").1 =
      some ("Error: Could not find coordinates for " ++ "Atlantis") :=
  ⟨by decide, by decide, rfl,
   (process_query_tool_propagates_error (stubEnv (.ok ⟨some []⟩) (.error "x") "Atlantis")
      "How is the weather?" ("Error: Could not find coordinates for " ++ "Atlantis")
      (by decide) (by decide) rfl).1⟩

/-- Claim C7: on a weather-classified question with an extracted city where
the weather fetch succeeds but the forecast body lacks the `current` key or
the `daily` key — or a required field of `current`, or a required key of
`daily`, or a `[0]` array element inside `daily`, is missing — the router
does not produce an error string: the unguarded key or index lookup raises,
aborting the query (result `none`). -/
theorem process_query_tool_malformed_faults (env : Env) (question : String) (w : Weather)
    (hw : needs_weather_data question = true)
    (hn : (extract_city env question).1 ≠ "NONE")
    (hd : (get_weather_tool env ((extract_city env question).1)).1 = .dict w)
    (hm : w.current = none ∨ w.daily = none ∨
      (∃ c, w.current = some c ∧ currentFields c = none) ∨
      (∃ d, w.daily = some d ∧ dailyFields d = none)) :
    (process_query_tool env question).1 = none := by
  have hp : extract_city env question = ((extract_city env question).1, ⟨[], [], 1⟩) := rfl
  rcases hg : get_weather_tool env ((extract_city env question).1) with ⟨res, c2⟩
  have hres : res = .dict w := by
    rw [hg] at hd
    exact hd
  subst hres
  have hfmt : format_weather_info env ((extract_city env question).1) w = none :=
    format_weather_info_missing env ((extract_city env question).1) w hm
  rw [process_query_tool.eq_def]
  simp [hw, hn, hg, hfmt, ← hp]

/-- A well-formed `current` object next to a `daily` object whose keys are
all present but whose arrays are all empty: every `[0]` access faults. -/
def emptyDailyWeather : Weather :=
  ⟨some ⟨some 20, some 50, some 0, some 10⟩, some ⟨some [], some [], some [], some []⟩⟩

/-- Witness for C7: a stub whose forecast response has `current` complete
and `daily` present with empty arrays, so the unguarded `[0]` index access
faults and the router aborts with the fault outcome. -/
theorem process_query_tool_malformed_faults_witness :
    needs_weather_data "How is the weather?" = true ∧
    (extract_city (stubEnv (.ok ⟨some [⟨0, 0⟩]⟩) (.ok emptyDailyWeather) "Paris") "How is the weather?").1 ≠ "NONE" ∧
    (get_weather_tool (stubEnv (.ok ⟨some [⟨0, 0⟩]⟩) (.ok emptyDailyWeather) "Paris")
        ((extract_city (stubEnv (.ok ⟨some [⟨0, 0⟩]⟩) (.ok emptyDailyWeather) "Paris") "How is the weather?").1)).1 =
      .dict emptyDailyWeather ∧
    dailyFields ⟨some [], some [], some [], some []⟩ = none ∧
    (process_query_tool (stubEnv (.ok ⟨some [⟨0, 0⟩]⟩) (.ok emptyDailyWeather) "Paris") "How is the weather?").1 = none :=
  ⟨by decide, by decide, rfl, rfl,
   process_query_tool_malformed_faults (stubEnv (.ok ⟨some [⟨0, 0⟩]⟩) (.ok emptyDailyWeather) "Paris")
     "How is the weather?" emptyDailyWeather (by decide) (by decide) rfl
     (Or.inr (Or.inr (Or.inr ⟨⟨some [], some [], some [], some []⟩, rfl, rfl⟩)))⟩

/-- Claim C10: the sentinel test of the router is an exact, case-sensitive
comparison of the whitespace-stripped extractor output with `NONE`: that
exact output yields the clarification message and no geocoding request,
while any other output — `None`, `none`, a quoted `"NONE"`, and so on — is
sent verbatim to the geocoding client as the city name. -/
theorem process_query_tool_sentinel_exact (env : Env) (question : String)
    (hw : needs_weather_data question = true) :
    ((extract_city env question).1 = "NONE" →
      (process_query_tool env question).1 = some clarification_message ∧
      (process_query_tool env question).2.geocodeArgs = []) ∧
    ((extract_city env question).1 ≠ "NONE" →
      (process_query_tool env question).2.geocodeArgs = [(extract_city env question).1]) := by
  refine ⟨?_, ?_⟩
  · intro hn
    have hp : extract_city env question = ("NONE", ⟨[], [], 1⟩) := by
      rw [← hn, ← extract_city_log env question]
    refine ⟨?_, ?_⟩ <;> simp [process_query_tool, hw, hp]
  · intro hn
    have hp : extract_city env question = ((extract_city env question).1, ⟨[], [], 1⟩) := rfl
    have hargs : (get_weather_tool env ((extract_city env question).1)).2.geocodeArgs =
        [(extract_city env question).1] :=
      (get_weather_data_log env ((extract_city env question).1)).1
    rcases hg : get_weather_tool env ((extract_city env question).1) with ⟨res, c2⟩
    rw [hg] at hargs
    simp only [] at hargs
    cases res with
    | str msg =>
      rw [process_query_tool.eq_def]
      simp [hw, hn, hg, mergeCalls, ← hp]
      simp [extract_city_log, hargs]
    | dict w =>
      rcases hfmt : format_weather_info env ((extract_city env question).1) w with _ | info <;>
        (rw [process_query_tool.eq_def]; simp [hw, hn, hg, hfmt, mergeCalls, ← hp];
         simp [extract_city_log, hargs])

/-- Witness for C10: a stub extractor answering `None` (wrong case): the
geocoding client is invoked with the verbatim string `None`. -/
theorem process_query_tool_sentinel_exact_witness :
    needs_weather_data "How is the weather?" = true ∧
    (extract_city (stubEnv (.ok ⟨some []⟩) (.error "x") " None ") "How is the weather?").1 ≠ "NONE" ∧
    (process_query_tool (stubEnv (.ok ⟨some []⟩) (.error "x") " None ") "How is the weather?").2.geocodeArgs =
      ["None"] :=
  ⟨by decide, by decide,
   (process_query_tool_sentinel_exact (stubEnv (.ok ⟨some []⟩) (.error "x") " None ")
      "How is the weather?" (by decide)).2 (by decide)⟩

end WeatherAssistant
